import Mathlib

/-!
Shallow embedding of `examples/seccheck/server.cc`, the seccheck event
stream receiver.

Byte buffers read from the socket are modelled as `List Nat`; the
fixed-width little-endian loads normalize every entry mod 256, exactly as a
byte load does.  Reading past the end of the `absl::string_view` (which the
source does via unchecked `reinterpret_cast` on the raw pointer) is
undefined behavior in C++; the embedding makes it observable as the
distinguished outcome `oobRead`.  `absl::string_view::substr(pos)` throws
`std::out_of_range` when `pos > size()`, which terminates this program
(no handler); that is the distinguished outcome `substrOOR`.

Protobuf parsing (`Any::ParseFromArray`, `Any::UnpackTo`) is external
library code, not part of this repository; the pipeline takes the parse
function as an explicit parameter and the per-type decoders take the
`UnpackTo` success bit as an explicit input, so every theorem quantifies
over the external parser's behavior.
-/

/-- The characters of the well-known type prefix; the source computes
`prefixLen = sizeof("type.googleapis.com/") - 1`. -/
def pfxChars : List Char := ("type.googleapis.com/").data

/-- `constexpr size_t prefixLen` in the source (= 20). -/
def pfxLen : Nat := pfxChars.length

/-- `constexpr size_t maxEventSize = 300 * 1024`. -/
def maxEventSize : Nat := 300 * 1024

/-- The source's `*reinterpret_cast<const uint32_t*>(buf.data())`: a 4-byte
little-endian load from the front of the view.  `none` means fewer than 4
bytes were available, i.e. the C++ load reads past the end of the view. -/
def readU32LE : List Nat → Option Nat
  | b0 :: b1 :: b2 :: b3 :: _ =>
      some (b0 % 256 + 2 ^ 8 * (b1 % 256) + 2 ^ 16 * (b2 % 256) + 2 ^ 24 * (b3 % 256))
  | _ => none

/-- The source's `hdr->header_size` load: a 2-byte little-endian load (the
packed `header` struct places `header_size` first; `dropped_count` is never
read by the program).  Applied to `buf.drop 4`, mirroring
`reinterpret_cast<const header*>(&buf[4])`. -/
def readU16LE : List Nat → Option Nat
  | b0 :: b1 :: _ => some (b0 % 256 + 2 ^ 8 * (b1 % 256))
  | _ => none

/-- Little-endian serialization of a u16, for building test frames. -/
def encodeU16LE (n : Nat) : List Nat := [n % 256, n / 2 ^ 8 % 256]

/-- Little-endian serialization of a u32, for building test frames. -/
def encodeU32LE (n : Nat) : List Nat :=
  [n % 256, n / 2 ^ 8 % 256, n / 2 ^ 16 % 256, n / 2 ^ 24 % 256]

/-- A parsed `google::protobuf::Any` envelope: a `type_url` string and the
opaque payload bytes. -/
structure AnyMsg where
  type_url : List Char
  value : List Nat
deriving DecidableEq

/-- Identifies one of the three callbacks registered in the static
`dispatchers` table. -/
inductive DecoderId where
  | sysRead
  | sysOpen
  | containerStart
deriving DecidableEq

/-- `std::map<std::string, Callback>`: an association list sorted by key.
A value of `none` models a null `std::function` (the value
`operator[]` inserts on a miss). -/
abbrev DispatchMap : Type := List (List Char × Option DecoderId)

/-- Key lookup in the map (`std::map::find` semantics): `none` when the key
has no entry, `some v` when the entry holds callback `v`. -/
def lookupAssoc (k : List Char) : DispatchMap → Option (Option DecoderId)
  | [] => none
  | (k2, v) :: rest => if k = k2 then some v else lookupAssoc k rest

/-- Lexicographic order on keys, as `std::less<std::string>` compares. -/
def charListLt : List Char → List Char → Bool
  | _, [] => false
  | [], _ :: _ => true
  | a :: as, b :: bs => if a < b then true else if b < a then false else charListLt as bs

/-- Insertion at the sorted position, as `std::map` stores a new key. -/
def sortedInsert (k : List Char) (v : Option DecoderId) : DispatchMap → DispatchMap
  | [] => [(k, v)]
  | (k2, v2) :: rest =>
      if charListLt k k2 then (k, v) :: (k2, v2) :: rest
      else (k2, v2) :: sortedInsert k v rest

/-- `std::map::operator[]`: returns the stored callback when the key is
present, and otherwise INSERTS a value-initialized (null) callback for the
key and returns it.  The second component is the map after the access. -/
def mapBracket (m : DispatchMap) (k : List Char) : Option DecoderId × DispatchMap :=
  match lookupAssoc k m with
  | some v => (v, m)
  | none => (none, sortedInsert k none m)

/-- The static `dispatchers` table built at startup (listed in `std::map`
key order). -/
def dispatchers : DispatchMap :=
  [(("gvisor.container.Start").data, some DecoderId.containerStart),
   (("gvisor.syscall.Open").data, some DecoderId.sysOpen),
   (("gvisor.syscall.Read").data, some DecoderId.sysRead)]

/-- The source's `size_t payload_size = message_size - 4 - hdr->header_size`:
`message_size` is `uint32_t` and `header_size` is `uint16_t`, so the
subtraction is performed in 32-bit unsigned arithmetic (wrapping mod 2^32)
and the result is zero-extended into `size_t`. -/
def payloadSizeCode (message_size header_size : Nat) : Nat :=
  (message_size + 2 ^ 32 - 4 - header_size) % 2 ^ 32

/-- Everything `unpack(absl::string_view)` can do on one buffer.  The first
five constructors are the early returns (printf diagnostics) plus the two
undefined/terminating behaviors; `fatalParse` is `err(1, "invalid proto
message")`; `invoked` records which registered callback was called, with
which envelope. -/
inductive UnpackOutcome where
  | oobRead (offset : Nat)
  | tooLarge (message_size : Nat)
  | headerTooLarge (header_size message_size : Nat)
  | substrOOR (pos size : Nat)
  | truncated (got expected : Nat)
  | fatalParse
  | urlTooShort (url : List Char)
  | noCallback (name : List Char)
  | invoked (d : DecoderId) (a : AnyMsg)
deriving DecidableEq

/-- The tail of `unpack(absl::string_view)` after `ParseFromArray`
succeeded: the URL length check, the prefix strip, and the
`dispatchers[name]` lookup followed by the null-callback check.  The map
mutation performed by `operator[]` is modelled by `mapBracket` (its second
component); this function returns the per-call outcome. -/
def dispatchAny (a : AnyMsg) : UnpackOutcome :=
  if a.type_url.length ≤ pfxLen then
    UnpackOutcome.urlTooShort a.type_url
  else
    let name := a.type_url.drop pfxLen
    match (mapBracket dispatchers name).1 with
    | none => UnpackOutcome.noCallback name
    | some d => UnpackOutcome.invoked d a

/-- `void unpack(const absl::string_view buf)`: the frame decoder and
envelope unpacker.  `parse` stands for `Any::ParseFromArray` over the
remainder of the buffer (the source passes `proto.data(), proto.size()`,
i.e. ALL bytes from offset `4 + header_size` to the end, not just
`payload_size` of them). -/
def unpack (parse : List Nat → Option AnyMsg) (buf : List Nat) : UnpackOutcome :=
  match readU32LE buf with
  | none => UnpackOutcome.oobRead 0
  | some message_size =>
    if message_size > maxEventSize then
      UnpackOutcome.tooLarge message_size
    else
      match readU16LE (buf.drop 4) with
      | none => UnpackOutcome.oobRead 4
      | some header_size =>
        let payload_size := payloadSizeCode message_size header_size
        -- `if (payload_size <= 0)`: `payload_size` is unsigned, so this
        -- only catches `payload_size == 0`.
        if payload_size = 0 then
          UnpackOutcome.headerTooLarge header_size message_size
        else if buf.length < 4 + header_size then
          UnpackOutcome.substrOOR (4 + header_size) buf.length
        else
          let proto := buf.drop (4 + header_size)
          if proto.length < payload_size then
            UnpackOutcome.truncated proto.length payload_size
          else
            match parse proto with
            | none => UnpackOutcome.fatalParse
            | some a => dispatchAny a

/-- What a registered per-type callback can do with one envelope. -/
inductive DecoderOutcome where
  | fatalUnpack
  | fatalBadName
  | printed (name : List Char)
deriving DecidableEq

/-- `type_url().find_last_of('.')`: index of the last dot, if any. -/
def findLastDot : List Char → Option Nat
  | [] => none
  | c :: rest =>
      match findLastDot rest with
      | some i => some (i + 1)
      | none => if c = '.' then some 0 else none

/-- `unpackSyscall<T>`: `err(1, ...)` when `UnpackTo` fails (`unpackOk`
models that external call), `err(1, ...)` when the URL has no dot,
otherwise print the suffix after the last dot. -/
def unpackSyscall (a : AnyMsg) (unpackOk : Bool) : DecoderOutcome :=
  if unpackOk then
    match findLastDot a.type_url with
    | none => DecoderOutcome.fatalBadName
    | some i => DecoderOutcome.printed (a.type_url.drop (i + 1))
  else DecoderOutcome.fatalUnpack

/-- `unpack<T>` (the template overload used for `gvisor.container.Start`):
`err(1, ...)` when `UnpackTo` fails, otherwise print the suffix after the
type prefix. -/
def unpackT (a : AnyMsg) (unpackOk : Bool) : DecoderOutcome :=
  if unpackOk then DecoderOutcome.printed (a.type_url.drop pfxLen)
  else DecoderOutcome.fatalUnpack

/-- Which template instantiation each registered table entry binds. -/
def runDecoder : DecoderId → AnyMsg → Bool → DecoderOutcome
  | DecoderId.sysRead, a, ok => unpackSyscall a ok
  | DecoderId.sysOpen, a, ok => unpackSyscall a ok
  | DecoderId.containerStart, a, ok => unpackT a ok

/-- The readiness bits `pollLoop` inspects on one `epoll_event`.  Note the
acceptor registers interest in `EPOLLIN` only; `EPOLLHUP` is delivered
regardless of registration. -/
structure EpollFlags where
  epollin : Bool
  ehup : Bool
  eerr : Bool
deriving DecidableEq

/-- Result of the `read(client, ...)` call: `rerr` is a negative return,
`ok l` a return of `l.length` bytes (`ok []` is a zero-length read). -/
inductive ReadRet where
  | rerr
  | ok (buf : List Nat)
deriving DecidableEq

/-- Observable effects of handling one `epoll_event` in `pollLoop`:
whether `err(1, "read")` was reached, which bytes (if any) were handed to
`unpack`, and whether `close(client)` ran (closing the fd also releases
its epoll registration). -/
structure StepResult where
  fatal : Bool
  dispatched : Option (List Nat)
  closed : Bool
deriving DecidableEq

/-- The body of the inner `for` loop of `pollLoop` for one event, with the
`read` result supplied as an input (the read only happens under
`EPOLLIN`).  A zero-length read takes neither the `bytes < 0` nor the
`bytes > 0` branch: nothing happens.  `close` runs exactly when
`EPOLLRDHUP` or `EPOLLHUP` is set; `EPOLLERR` only logs. -/
def pollLoopStep (f : EpollFlags) (rd : ReadRet) : StepResult :=
  if f.epollin then
    match rd with
    | ReadRet.rerr => ⟨true, none, false⟩
    | ReadRet.ok buf =>
        ⟨false, if buf.length > 0 then some buf else none, f.ehup⟩
  else ⟨false, none, f.ehup⟩

/-! Helper lemmas shared by the claim theorems. -/

/-- Decoding a serialized u32 in front of any tail yields the value mod 2^32. -/
theorem readU32LE_encode (n : Nat) (rest : List Nat) :
    readU32LE (encodeU32LE n ++ rest) = some (n % 2 ^ 32) := by
  simp only [encodeU32LE, List.cons_append, List.nil_append, readU32LE]
  congr 1
  omega

/-- Decoding a serialized u16 in front of any tail yields the value mod 2^16. -/
theorem readU16LE_encode (n : Nat) (rest : List Nat) :
    readU16LE (encodeU16LE n ++ rest) = some (n % 2 ^ 16) := by
  simp only [encodeU16LE, List.cons_append, List.nil_append, readU16LE]
  congr 1
  omega

/-- Dropping the 4 bytes of a serialized u32 exposes the tail. -/
theorem drop4_encode32 (n : Nat) (rest : List Nat) :
    (encodeU32LE n ++ rest).drop 4 = rest := rfl

/-- Dropping the 2 bytes of a serialized u16 exposes the tail. -/
theorem drop2_encode16 (n : Nat) (rest : List Nat) :
    (encodeU16LE n ++ rest).drop 2 = rest := rfl

/-- `sortedInsert` always grows the map by one entry. -/
theorem sortedInsert_length (k : List Char) (v : Option DecoderId) :
    ∀ m : DispatchMap, (sortedInsert k v m).length = m.length + 1 := by
  intro m
  induction m with
  | nil => rfl
  | cons e rest ih =>
      obtain ⟨k2, v2⟩ := e
      simp only [sortedInsert]
      split
      · simp
      · simp [ih]

/-- When every size check of the frame decoder passes, `unpack` reduces to
parsing the remainder of the buffer and dispatching. -/
theorem unpack_eq (parse : List Nat → Option AnyMsg) (buf : List Nat) (ms hs : Nat)
    (h32 : readU32LE buf = some ms)
    (hms : ¬ ms > maxEventSize)
    (h16 : readU16LE (buf.drop 4) = some hs)
    (hp0 : payloadSizeCode ms hs ≠ 0)
    (hpos : ¬ buf.length < 4 + hs)
    (htr : ¬ (buf.drop (4 + hs)).length < payloadSizeCode ms hs) :
    unpack parse buf =
      match parse (buf.drop (4 + hs)) with
      | none => UnpackOutcome.fatalParse
      | some a => dispatchAny a := by
  unfold unpack
  rw [h32]
  simp only [if_neg hms, h16, if_neg hp0, if_neg hpos, if_neg htr]

/-- C1: the claim says buffers shorter than 4 bytes are rejected with the
Empty diagnostic and never read out of bounds.  The code has no such check:
this theorem shows that for EVERY buffer of fewer than 4 bytes (and every
behavior of the external protobuf parser) `unpack` performs the 4-byte
`total_size` load past the end of the view — undefined behavior, with no
Empty diagnostic anywhere in the program. -/
theorem c1_short_buffer_oob (parse : List Nat → Option AnyMsg) (buf : List Nat)
    (h : buf.length < 4) : unpack parse buf = UnpackOutcome.oobRead 0 := by
  cases buf with
  | nil => rfl
  | cons a t =>
      cases t with
      | nil => rfl
      | cons b t =>
          cases t with
          | nil => rfl
          | cons c t =>
              cases t with
              | nil => rfl
              | cons d t => simp at h; omega

/-- Witness for C1: the one-byte buffer `[1]` is shorter than 4 bytes and
drives `unpack` into the out-of-bounds `total_size` load. -/
theorem c1_short_buffer_oob_w :
    ([1] : List Nat).length < 4 ∧
      unpack (fun _ => none) [1] = UnpackOutcome.oobRead 0 :=
  ⟨by decide, c1_short_buffer_oob (fun _ => none) [1] (by decide)⟩

/-- C2: counter-evidence.  On the frame `total_size = 12`, `header_size = 9`
(so `4 + header_size = 13 > 12`), the code's unsigned computation of
`payload_size` wraps to `2^32 - 1` — the `payload_size <= 0` test on a
`size_t` only catches exact equality — and the frame is reported as
"Message was truncated", not as header-too-large. -/
theorem c2_underflow_wraps :
    payloadSizeCode 12 9 = 2 ^ 32 - 1 ∧
      unpack (fun _ => none) [12, 0, 0, 0, 9, 0, 0, 0, 0, 0, 1, 2, 3, 4, 5, 6]
        = UnpackOutcome.truncated 3 (2 ^ 32 - 1) := by
  exact ⟨by decide, by decide⟩

/-- Counterexample for C3: looking up the unregistered name
`"unknown.Type"` with `dispatchers[name]` (std::map::operator[]) leaves the
registry changed — a null entry for that name has been inserted. -/
theorem c3_lookup_mutates :
    (mapBracket dispatchers (("unknown.Type").data)).2 ≠ dispatchers := by
  decide

/-- C3 (amended): the registry is built once at startup and a lookup of a
registered name leaves it unchanged, but a lookup of an unregistered name
inserts a null-callback entry for that name (std::map::operator[]),
mutating the registry, and hands back the null callback. -/
theorem c3_registry_mutation (k : List Char) :
    (lookupAssoc k dispatchers ≠ none → (mapBracket dispatchers k).2 = dispatchers) ∧
      (lookupAssoc k dispatchers = none →
        (mapBracket dispatchers k).1 = none ∧
          (mapBracket dispatchers k).2 ≠ dispatchers) := by
  constructor
  · intro h
    cases hl : lookupAssoc k dispatchers with
    | none => exact absurd hl h
    | some v => simp [mapBracket, hl]
  · intro h
    refine ⟨by simp [mapBracket, h], ?_⟩
    simp only [mapBracket, h]
    intro heq
    have hlen := congrArg List.length heq
    rw [sortedInsert_length] at hlen
    simp [dispatchers] at hlen

/-- Witness for C3: at the unregistered name `"unknown.Type"` the lookup
yields a null callback and the registry after the lookup differs from the
registry before it. -/
theorem c3_registry_mutation_w :
    (mapBracket dispatchers (("unknown.Type").data)).1 = none ∧
      (mapBracket dispatchers (("unknown.Type").data)).2 ≠ dispatchers :=
  (c3_registry_mutation (("unknown.Type").data)).2 (by decide)

/-- C4: a well-formed frame with `header_size = 6`, `dropped_count = 0`,
consistent `total_size = 10 + |E|`, whose envelope bytes `E` parse as an
Any with `type_url = "type.googleapis.com/gvisor.container.Start"` and
payload `P`, drives `unpack` to invoke exactly the registered
`gvisor.container.Start` callback, exactly once (the `invoked` outcome is
the single `cb(any)` call site), with the envelope carrying payload `P`. -/
theorem c4_start_round_trip (parse : List Nat → Option AnyMsg) (E P : List Nat)
    (hne : E ≠ [])
    (hsz : 10 + E.length ≤ maxEventSize)
    (hparse : parse E
      = some ⟨("type.googleapis.com/gvisor.container.Start").data, P⟩) :
    unpack parse (encodeU32LE (10 + E.length) ++ encodeU16LE 6 ++ encodeU32LE 0 ++ E)
      = UnpackOutcome.invoked DecoderId.containerStart
          ⟨("type.googleapis.com/gvisor.container.Start").data, P⟩ := by
  have hmax : maxEventSize = 307200 := rfl
  have hlen32 : 10 + E.length < 2 ^ 32 := by omega
  have hnil : 0 < E.length := List.length_pos.mpr hne
  have h32 : readU32LE
      (encodeU32LE (10 + E.length) ++ (encodeU16LE 6 ++ (encodeU32LE 0 ++ E)))
        = some (10 + E.length) := by
    rw [readU32LE_encode]
    exact congrArg some (Nat.mod_eq_of_lt hlen32)
  have h16 : readU16LE
      ((encodeU32LE (10 + E.length) ++ (encodeU16LE 6 ++ (encodeU32LE 0 ++ E))).drop 4)
        = some 6 := by
    rw [drop4_encode32, readU16LE_encode]
    decide
  have hlbuf :
      (encodeU32LE (10 + E.length) ++ (encodeU16LE 6 ++ (encodeU32LE 0 ++ E))).length
        = 10 + E.length := by
    simp [encodeU32LE, encodeU16LE]
    omega
  have hpay : payloadSizeCode (10 + E.length) 6 = E.length := by
    unfold payloadSizeCode
    omega
  have hdropE :
      (encodeU32LE (10 + E.length) ++ (encodeU16LE 6 ++ (encodeU32LE 0 ++ E))).drop (4 + 6)
        = E := rfl
  rw [List.append_assoc, List.append_assoc]
  rw [unpack_eq parse _ (10 + E.length) 6 h32 (by omega) h16 (by omega)
      (by rw [hlbuf]; omega) (by rw [hdropE, hpay]; omega)]
  rw [hdropE, hparse]
  rfl

/-- Witness for C4: the concrete one-byte envelope `E = [42]` with payload
`P = [7]`, under a parser mapping `[42]` to that envelope. -/
theorem c4_start_round_trip_w :
    unpack
        (fun l =>
          if l = [42] then
            some ⟨("type.googleapis.com/gvisor.container.Start").data, [7]⟩
          else none)
        (encodeU32LE 11 ++ encodeU16LE 6 ++ encodeU32LE 0 ++ [42])
      = UnpackOutcome.invoked DecoderId.containerStart
          ⟨("type.googleapis.com/gvisor.container.Start").data, [7]⟩ :=
  c4_start_round_trip _ [42] [7] (by decide) (by decide) (by decide)

/-- Counterexample for C5: a readiness event with only `EPOLLIN` set whose
`read` returns zero bytes is a no-op — the connection is NOT closed (and
nothing is dispatched), contradicting the claim that a zero-length read
transitions the connection to Closed. -/
theorem c5_zero_read_leaves_open :
    pollLoopStep ⟨true, false, false⟩ (ReadRet.ok []) = ⟨false, none, false⟩ := rfl

/-- C5 (amended): a peer-hangup readiness event (`EPOLLRDHUP`/`EPOLLHUP`)
closes the connection (and closing the fd releases its epoll
registration); a zero-length read is ignored (nothing dispatched, and the
connection closes only if a hangup bit accompanies the event); a negative
`read` return value terminates the process (`err(1, "read")`). -/
theorem c5_poll_step (f : EpollFlags) (buf : List Nat) (hin : f.epollin = true) :
    (pollLoopStep f (ReadRet.ok buf)).closed = f.ehup ∧
      (pollLoopStep f ReadRet.rerr).fatal = true ∧
      (pollLoopStep f (ReadRet.ok [])).dispatched = none := by
  simp [pollLoopStep, hin]

/-- Witness for C5: flags `EPOLLIN + EPOLLHUP`: a one-byte read closes the
connection (hangup bit), a negative read is fatal, a zero-length read
dispatches nothing. -/
theorem c5_poll_step_w :
    (pollLoopStep ⟨true, true, false⟩ (ReadRet.ok [5])).closed = true ∧
      (pollLoopStep ⟨true, true, false⟩ ReadRet.rerr).fatal = true ∧
      (pollLoopStep ⟨true, true, false⟩ (ReadRet.ok [])).dispatched = none :=
  c5_poll_step ⟨true, true, false⟩ [5] rfl

/-- C6: every envelope whose `type_url` length is at most the prefix length
(20) is rejected with the non-fatal "Invalid URL" diagnostic; the
`substr(prefixLen)` call is only reached in the other branch, so no
substring operation past the string's bounds is executed and no callback
is looked up or invoked. -/
theorem c6_url_too_short (a : AnyMsg) (h : a.type_url.length ≤ pfxLen) :
    dispatchAny a = UnpackOutcome.urlTooShort a.type_url := by
  unfold dispatchAny
  rw [if_pos h]

/-- Witness for C6: the 5-character URL `"short"`. -/
theorem c6_url_too_short_w :
    (AnyMsg.mk (("short").data) []).type_url.length ≤ pfxLen ∧
      dispatchAny (AnyMsg.mk (("short").data) [])
        = UnpackOutcome.urlTooShort (("short").data) :=
  ⟨by decide, c6_url_too_short (AnyMsg.mk (("short").data) []) (by decide)⟩

/-- C7: a valid envelope whose dispatch key (the suffix of `type_url` after
the prefix) is not registered produces the logged "No callback registered"
outcome: zero decoders are invoked, the process does not terminate, and
`unpack` returns so the loop continues with the next event. -/
theorem c7_unregistered_no_decoder (a : AnyMsg)
    (hlen : pfxLen < a.type_url.length)
    (hmiss : lookupAssoc (a.type_url.drop pfxLen) dispatchers = none) :
    dispatchAny a = UnpackOutcome.noCallback (a.type_url.drop pfxLen) := by
  unfold dispatchAny
  rw [if_neg (not_le.mpr hlen)]
  simp only [mapBracket, hmiss]

/-- Witness for C7: the unregistered name `"unknown.Type"`. -/
theorem c7_unregistered_no_decoder_w :
    dispatchAny (AnyMsg.mk (("type.googleapis.com/unknown.Type").data) [1])
      = UnpackOutcome.noCallback (("unknown.Type").data) :=
  c7_unregistered_no_decoder
    (AnyMsg.mk (("type.googleapis.com/unknown.Type").data) [1])
    (by decide) (by decide)

/-- C8: when every size check of the frame decoder passes but the envelope
bytes do not parse as a well-formed Any, `unpack` reaches
`err(1, "invalid proto message")` — the process terminates instead of
dropping the record. -/
theorem c8_parse_fail_fatal (parse : List Nat → Option AnyMsg) (buf : List Nat)
    (ms hs : Nat)
    (h32 : readU32LE buf = some ms)
    (hms : ms ≤ maxEventSize)
    (h16 : readU16LE (buf.drop 4) = some hs)
    (hp0 : payloadSizeCode ms hs ≠ 0)
    (hpos : 4 + hs ≤ buf.length)
    (htr : payloadSizeCode ms hs ≤ (buf.drop (4 + hs)).length)
    (hparse : parse (buf.drop (4 + hs)) = none) :
    unpack parse buf = UnpackOutcome.fatalParse := by
  rw [unpack_eq parse buf ms hs h32 (not_lt.mpr hms) h16 hp0 (not_lt.mpr hpos)
      (not_lt.mpr htr), hparse]

/-- Witness for C8: an 11-byte frame whose single payload byte fails to
parse (the parser rejects everything). -/
theorem c8_parse_fail_fatal_w :
    unpack (fun _ => none) [11, 0, 0, 0, 6, 0, 0, 0, 0, 0, 42]
      = UnpackOutcome.fatalParse :=
  c8_parse_fail_fatal (fun _ => none) [11, 0, 0, 0, 6, 0, 0, 0, 0, 0, 42] 11 6
    (by decide) (by decide) (by decide) (by decide) (by decide) (by decide)
    (by decide)

/-- C9: a frame with `total_size` exactly `4 + header_size` (an empty
payload) makes `payload_size` exactly 0 — the one value the unsigned
`payload_size <= 0` test does catch — so the frame is dropped with the
header-too-large diagnostic and, for every possible parser behavior, the
envelope unpacker is never reached; and indeed no unsigned wraparound
happens here. -/
theorem c9_empty_payload_rejected (parse : List Nat → Option AnyMsg)
    (buf : List Nat) (ms hs : Nat)
    (h32 : readU32LE buf = some ms)
    (h16 : readU16LE (buf.drop 4) = some hs)
    (hms : ms ≤ maxEventSize)
    (heq : ms = 4 + hs) :
    unpack parse buf = UnpackOutcome.headerTooLarge hs ms := by
  have hp : payloadSizeCode ms hs = 0 := by
    unfold payloadSizeCode
    omega
  unfold unpack
  rw [h32]
  simp [if_neg (not_lt.mpr hms), h16, hp]

/-- Witness for C9: `total_size = 10`, `header_size = 6`. -/
theorem c9_empty_payload_rejected_w :
    unpack (fun _ => none) [10, 0, 0, 0, 6, 0, 0, 0, 0, 0]
      = UnpackOutcome.headerTooLarge 6 10 :=
  c9_empty_payload_rejected (fun _ => none) [10, 0, 0, 0, 6, 0, 0, 0, 0, 0] 10 6
    (by decide) (by decide) (by decide) (by decide)

/-- C10: every registered callback (`unpackSyscall<gvisor.syscall.Read>`,
`unpackSyscall<gvisor.syscall.Open>`, `unpack<gvisor.container.Start>`)
reaches `err(1, "UnpackTo(): ...")` — process termination — whenever
`UnpackTo` fails on the payload; none of them drops the record and
recovers. -/
theorem c10_decoders_fatal (d : DecoderId) (a : AnyMsg) :
    runDecoder d a false = DecoderOutcome.fatalUnpack := by
  cases d <;> rfl
